import Mathlib

/-!
Verification development for the Multi-Language OCR Text Extraction Tool
(single source file `serve.py`).  The Python code is shallowly embedded:
string primitives are modelled on `List Char` with Python semantics
(`str.strip`, `str.split`, `str.isupper`, `str.count`, slicing), stateful
session behaviour is modelled by explicit state passing, and the external
image library / OCR service are abstract function parameters.
-/

/-! ## Python string primitives (modelled on lists of characters) -/

/-- Characters stripped by Python `str.strip()` with no argument
(ASCII whitespace; the source text never contains other Unicode spaces). -/
def isSpaceChar (c : Char) : Bool :=
  c = ' ' || c = '\t' || c = '\n' || c = '\r' || c = '\x0b' || c = '\x0c'

/-- Python `s.strip()`: drop whitespace from both ends. -/
def pyStrip (s : String) : String :=
  String.mk (((s.toList.dropWhile isSpaceChar).reverse.dropWhile isSpaceChar).reverse)

/-- Python `s.startswith(p)` for a single prefix string. -/
def pyStartsWith (s p : String) : Bool :=
  p.toList.isPrefixOf s.toList

/-- Python `c in s` for a single character. -/
def pyContainsChar (s : String) (c : Char) : Bool :=
  s.toList.contains c

/-- Python `s[:n]` (slicing counts code points). -/
def pyTake (s : String) (n : Nat) : String :=
  String.mk (s.toList.take n)

/-- A character is cased (has upper/lower variants); ASCII approximation of
Python's Unicode notion, adequate for the OCR text handled here. -/
def isCasedChar (c : Char) : Bool :=
  c.isUpper || c.isLower

/-- Python `s.isupper()`: at least one cased character, and every cased
character is upper-case. -/
def pyIsUpper (s : String) : Bool :=
  s.toList.any isCasedChar && s.toList.all (fun c => !isCasedChar c || c.isUpper)

/-- Python `s.count("  ")`: non-overlapping occurrences of two consecutive
spaces, scanning left to right. -/
def countDoubleSpace : List Char → Nat
  | ' ' :: ' ' :: rest => countDoubleSpace rest + 1
  | _ :: rest => countDoubleSpace rest
  | [] => 0

/-- Helper for `splitLines`; the accumulator holds the current line reversed. -/
def splitLinesAux : List Char → List Char → List String
  | [], acc => [String.mk acc.reverse]
  | c :: rest, acc =>
    if c = '\n' then String.mk acc.reverse :: splitLinesAux rest []
    else splitLinesAux rest (c :: acc)

/-- Python `text.split('\n')` (source line 160: `lines = text.split('\n')`). -/
def splitLines (text : String) : List String :=
  splitLinesAux text.toList []

/-! ## Text structure analyzer (`analyze_text_structure`, serve.py 158-194) -/

/-- The five structural buckets of `analyze_text_structure`. -/
inductive Bucket where
  | heading
  | listItem
  | codeBlock
  | tableRow
  | paragraph
deriving DecidableEq, Repr

/-- Rule 2 (serve.py 175): `line.startswith('#') or (line.isupper() and len(line) < 100)`. -/
def headingTest (line : String) : Bool :=
  pyStartsWith line "#" || (pyIsUpper line && decide (line.length < 100))

/-- Rule 3 (serve.py 179): `line.startswith(('•', '-', '*', '1.', '2.', '3.'))`. -/
def listTest (line : String) : Bool :=
  pyStartsWith line "•" || pyStartsWith line "-" || pyStartsWith line "*" ||
    pyStartsWith line "1." || pyStartsWith line "2." || pyStartsWith line "3."

/-- Rule 4 (serve.py 183): `any(char in line for char in ['{', '}', '(', ')', ';', '='])`. -/
def codeTest (line : String) : Bool :=
  ['\x7b', '\x7d', '(', ')', ';', '='].any (fun c => pyContainsChar line c)

/-- Rule 5 (serve.py 187): `'\t' in line or line.count('  ') > 3`. -/
def tableTest (line : String) : Bool :=
  pyContainsChar line '\t' || decide (countDoubleSpace line.toList > 3)

/-- The if/elif chain of `analyze_text_structure` applied to one stripped
non-blank line; first matching rule wins. -/
def classifyLine (line : String) : Bucket :=
  if headingTest line then .heading
  else if listTest line then .listItem
  else if codeTest line then .codeBlock
  else if tableTest line then .tableRow
  else .paragraph

/-- The `structure` dictionary of `analyze_text_structure`
(keys 'headings', 'lists', 'paragraphs', 'tables', 'code_blocks');
each entry is a (line-number, text) pair mirroring `{'line': i+1, 'text': line}`. -/
structure StructureReport where
  headings : List (Nat × String)
  lists : List (Nat × String)
  paragraphs : List (Nat × String)
  tables : List (Nat × String)
  code_blocks : List (Nat × String)
deriving DecidableEq, Repr

/-- The initial empty `structure` dictionary (serve.py 161-167). -/
def emptyStructure : StructureReport :=
  ⟨[], [], [], [], []⟩

/-- Append one classified entry to the bucket the rule chain selected
(the `structure[...].append(...)` calls of serve.py 176-192). -/
def insertEntry (st : StructureReport) (b : Bucket) (e : Nat × String) : StructureReport :=
  match b with
  | .heading => { st with headings := st.headings ++ [e] }
  | .listItem => { st with lists := st.lists ++ [e] }
  | .codeBlock => { st with code_blocks := st.code_blocks ++ [e] }
  | .tableRow => { st with tables := st.tables ++ [e] }
  | .paragraph => { st with paragraphs := st.paragraphs ++ [e] }

/-- One iteration of the `for i, line in enumerate(lines)` loop
(serve.py 169-192): strip, skip blanks, classify, record (i+1, stripped). -/
def analyzeStep (st : StructureReport) (p : Nat × String) : StructureReport :=
  let line := pyStrip p.2
  if line = "" then st
  else insertEntry st (classifyLine line) (p.1 + 1, line)

/-- `analyze_text_structure(text)` (serve.py 158-194). -/
def analyze_text_structure (text : String) : StructureReport :=
  ((splitLines text).enum).foldl analyzeStep emptyStructure

/-- Bucket selector, for stating partition properties uniformly. -/
def bucketGet (st : StructureReport) : Bucket → List (Nat × String)
  | .heading => st.headings
  | .listItem => st.lists
  | .codeBlock => st.code_blocks
  | .tableRow => st.tables
  | .paragraph => st.paragraphs

/-! ## History manager (`add_to_history`, serve.py 138-156) -/

/-- One `history_item` dictionary (serve.py 143-150): `text` is the preview
(first 200 characters plus ellipsis when longer), `full_text` the whole text. -/
structure HistoryItem where
  timestamp : String
  text : String
  language : String
  filename : String
  processing_time : Rat
  full_text : String
deriving DecidableEq, Repr

/-- Build the `history_item` of serve.py 143-150; the current wall-clock
string is passed in as `now`. -/
def mkHistoryItem (now text language filename : String) (processing_time : Rat) : HistoryItem :=
  { timestamp := now
    text := if text.length > 200 then pyTake text 200 ++ "..." else text
    language := language
    filename := filename
    processing_time := processing_time
    full_text := text }

/-- `add_to_history` (serve.py 138-156): insert the new item at index 0,
then keep only the first 20 items when the list exceeds 20. -/
def add_to_history (now text language filename : String) (processing_time : Rat)
    (ocr_history : List HistoryItem) : List HistoryItem :=
  let h := mkHistoryItem now text language filename processing_time :: ocr_history
  if h.length > 20 then h.take 20 else h

/-! ## MD5 (Python `hashlib.md5(...).hexdigest()`), needed by the share id -/

/-- UTF-8 encoding of one code point (Python `str.encode()`). -/
def charUtf8 (c : Char) : List Nat :=
  let n := c.toNat
  if n < 128 then [n]
  else if n < 2048 then [192 ||| (n >>> 6), 128 ||| (n &&& 63)]
  else if n < 65536 then
    [224 ||| (n >>> 12), 128 ||| ((n >>> 6) &&& 63), 128 ||| (n &&& 63)]
  else
    [240 ||| (n >>> 18), 128 ||| ((n >>> 12) &&& 63),
      128 ||| ((n >>> 6) &&& 63), 128 ||| (n &&& 63)]

/-- UTF-8 bytes of a string (Python `str.encode()`). -/
def utf8Bytes (s : String) : List Nat :=
  (s.toList.map charUtf8).flatten

/-- Two to the thirty-second power, the MD5 word modulus. -/
def M32 : Nat := 4294967296

/-- Left-rotate a 32-bit word. -/
def rotl32 (x n : Nat) : Nat :=
  ((x <<< n) % M32) ||| (x >>> (32 - n))

/-- Little-endian byte decomposition of a number into `n` bytes. -/
def toLEBytes : Nat → Nat → List Nat
  | 0, _ => []
  | n + 1, x => (x % 256) :: toLEBytes n (x / 256)

/-- Group a byte list into little-endian 32-bit words. -/
def leWords : List Nat → List Nat
  | a :: b :: c :: d :: rest => (a + 256 * (b + 256 * (c + 256 * d))) :: leWords rest
  | _ => []

/-- MD5 per-round additive constants. -/
def md5K : List Nat :=
  [0xd76aa478, 0xe8c7b756, 0x242070db, 0xc1bdceee,
   0xf57c0faf, 0x4787c62a, 0xa8304613, 0xfd469501,
   0x698098d8, 0x8b44f7af, 0xffff5bb1, 0x895cd7be,
   0x6b901122, 0xfd987193, 0xa679438e, 0x49b40821,
   0xf61e2562, 0xc040b340, 0x265e5a51, 0xe9b6c7aa,
   0xd62f105d, 0x02441453, 0xd8a1e681, 0xe7d3fbc8,
   0x21e1cde6, 0xc33707d6, 0xf4d50d87, 0x455a14ed,
   0xa9e3e905, 0xfcefa3f8, 0x676f02d9, 0x8d2a4c8a,
   0xfffa3942, 0x8771f681, 0x6d9d6122, 0xfde5380c,
   0xa4beea44, 0x4bdecfa9, 0xf6bb4b60, 0xbebfbc70,
   0x289b7ec6, 0xeaa127fa, 0xd4ef3085, 0x04881d05,
   0xd9d4d039, 0xe6db99e5, 0x1fa27cf8, 0xc4ac5665,
   0xf4292244, 0x432aff97, 0xab9423a7, 0xfc93a039,
   0x655b59c3, 0x8f0ccc92, 0xffeff47d, 0x85845dd1,
   0x6fa87e4f, 0xfe2ce6e0, 0xa3014314, 0x4e0811a1,
   0xf7537e82, 0xbd3af235, 0x2ad7d2bb, 0xeb86d391]

/-- MD5 per-round left-rotation amounts. -/
def md5S : List Nat :=
  [7, 12, 17, 22, 7, 12, 17, 22, 7, 12, 17, 22, 7, 12, 17, 22,
   5, 9, 14, 20, 5, 9, 14, 20, 5, 9, 14, 20, 5, 9, 14, 20,
   4, 11, 16, 23, 4, 11, 16, 23, 4, 11, 16, 23, 4, 11, 16, 23,
   6, 10, 15, 21, 6, 10, 15, 21, 6, 10, 15, 21, 6, 10, 15, 21]

/-- One of the 64 MD5 rounds on state (a, b, c, d) with message words `X`. -/
def md5Round (X : List Nat) (st : Nat × Nat × Nat × Nat) (i : Nat) : Nat × Nat × Nat × Nat :=
  let a := st.1
  let b := st.2.1
  let c := st.2.2.1
  let d := st.2.2.2
  let fg : Nat × Nat :=
    if i < 16 then ((b &&& c) ||| ((b ^^^ 4294967295) &&& d), i)
    else if i < 32 then ((d &&& b) ||| ((d ^^^ 4294967295) &&& c), (5 * i + 1) % 16)
    else if i < 48 then (b ^^^ c ^^^ d, (3 * i + 5) % 16)
    else (c ^^^ (b ||| (d ^^^ 4294967295)), (7 * i) % 16)
  let f := (fg.1 + a + md5K.getD i 0 + X.getD fg.2 0) % M32
  (d, (b + rotl32 f (md5S.getD i 0)) % M32, b, c)

/-- Process one 16-word MD5 block. -/
def md5Block (h : Nat × Nat × Nat × Nat) (X : List Nat) : Nat × Nat × Nat × Nat :=
  let r := (List.range 64).foldl (md5Round X) h
  ((h.1 + r.1) % M32, (h.2.1 + r.2.1) % M32, (h.2.2.1 + r.2.2.1) % M32, (h.2.2.2 + r.2.2.2) % M32)

/-- Process the padded message, 16 words at a time. -/
def md5Blocks : Nat × Nat × Nat × Nat → List Nat → Nat × Nat × Nat × Nat
  | h, w0 :: w1 :: w2 :: w3 :: w4 :: w5 :: w6 :: w7 ::
      w8 :: w9 :: w10 :: w11 :: w12 :: w13 :: w14 :: w15 :: rest =>
    md5Blocks (md5Block h [w0, w1, w2, w3, w4, w5, w6, w7, w8, w9, w10, w11, w12, w13, w14, w15]) rest
  | h, _ => h

/-- MD5 padding: append 0x80, zero bytes to 56 mod 64, then the bit length
as 8 little-endian bytes. -/
def md5Pad (msg : List Nat) : List Nat :=
  msg ++ [128] ++ List.replicate ((119 - msg.length % 64) % 64) 0 ++
    toLEBytes 8 ((msg.length * 8) % 18446744073709551616)

/-- Lower-case hex digit. -/
def hexDigit (n : Nat) : Char :=
  Char.ofNat (if n < 10 then 48 + n else 87 + n)

/-- Python `hashlib.md5(s.encode()).hexdigest()`. -/
def md5Hex (s : String) : String :=
  let r := md5Blocks (0x67452301, 0xefcdab89, 0x98badcfe, 0x10325476) (leWords (md5Pad (utf8Bytes s)))
  let bytes := toLEBytes 4 r.1 ++ toLEBytes 4 r.2.1 ++ toLEBytes 4 r.2.2.1 ++ toLEBytes 4 r.2.2.2
  String.mk ((bytes.map (fun b => [hexDigit (b / 16), hexDigit (b % 16)])).flatten)

/-! ## Share manager (serve.py 110-136) -/

/-- One stored shared result (serve.py 121-125). -/
structure ShareRecord where
  text : String
  language : String
  timestamp : String
deriving DecidableEq, Repr

/-- `generate_shareable_link(text, language)` (serve.py 110-130).  The wall
clock `int(time.time())` is passed in as `timeNow`, the configured
`server.baseUrlPath` option as `baseUrlOpt` (Python `or` treats both a
missing option and an empty string as falsy), and the session-state
`shared_results` dictionary as an explicit association list.  Returns
(share_url, share_id, updated shared_results). -/
def generate_shareable_link (baseUrlOpt : Option String) (text language : String)
    (timeNow : Nat) (shared_results : List (String × ShareRecord)) :
    String × String × List (String × ShareRecord) :=
  let timestamp := toString timeNow
  let content_hash := pyTake (md5Hex (text ++ language ++ timestamp)) 8
  let share_id := timestamp ++ "_" ++ content_hash
  let shared := (share_id, ({ text := text, language := language, timestamp := timestamp } : ShareRecord)) :: shared_results
  let base_url := match baseUrlOpt with
    | some b => if b = "" then "http://localhost:8501" else b
    | none => "http://localhost:8501"
  (base_url ++ "?share=" ++ share_id, share_id, shared)

/-- `get_shared_result(share_id)` (serve.py 132-136): dictionary lookup,
`None` when absent. -/
def get_shared_result (shared_results : List (String × ShareRecord))
    (share_id : String) : Option ShareRecord :=
  shared_results.lookup share_id

/-! ## Language catalog (serve.py 331-397) -/

/-- The `languages` dictionary (serve.py 331-397), in source order; the
select box uses index 0 (English) as the default selection. -/
def languages : List (String × String) :=
  [("English", "eng"),
   ("French", "fra"),
   ("Spanish", "spa"),
   ("German", "deu"),
   ("Italian", "ita"),
   ("Portuguese", "por"),
   ("Dutch", "nld"),
   ("Russian", "rus"),
   ("Chinese (Simplified)", "chs"),
   ("Japanese", "jpn"),
   ("Korean", "kor"),
   ("Arabic", "ara"),
   ("Turkish", "tur"),
   ("Polish", "pol"),
   ("Romanian", "ron"),
   ("Ukrainian", "ukr"),
   ("Vietnamese", "vie"),
   ("Czech", "ces"),
   ("Greek", "ell"),
   ("Bulgarian", "bul"),
   ("Croatian", "hrv"),
   ("Hungarian", "hun"),
   ("Slovak", "slk"),
   ("Slovenian", "slv"),
   ("Swedish", "swe"),
   ("Finnish", "fin"),
   ("Danish", "dan"),
   ("Norwegian", "nor"),
   ("Hebrew", "heb"),
   ("Hindi", "hin"),
   ("Malay", "msa"),
   ("Thai", "tha"),
   ("Indonesian", "ind"),
   ("Filipino", "fil"),
   ("Serbian (Latin)", "srp"),
   ("Serbian (Cyrillic)", "srp-cyr"),
   ("Albanian", "sqi"),
   ("Estonian", "est"),
   ("Latvian", "lav"),
   ("Lithuanian", "lit"),
   ("Macedonian", "mkd"),
   ("Georgian", "kat"),
   ("Armenian", "hye"),
   ("Azerbaijani", "aze"),
   ("Kazakh", "kaz"),
   ("Uzbek", "uzb"),
   ("Mongolian", "mon"),
   ("Persian", "fas"),
   ("Pashto", "pus"),
   ("Urdu", "urd"),
   ("Bengali", "ben"),
   ("Tamil", "tam"),
   ("Telugu", "tel"),
   ("Kannada", "kan"),
   ("Malayalam", "mal"),
   ("Marathi", "mar"),
   ("Gujarati", "guj"),
   ("Punjabi", "pan"),
   ("Sinhala", "sin"),
   ("Nepali", "nep"),
   ("Burmese", "mya"),
   ("Khmer", "khm"),
   ("Lao", "lao"),
   ("Tibetan", "bod"),
   ("Other", "eng")]

/-! ## Image preprocessing (serve.py 459-476), over an abstract image library -/

/-- The conditional rotation of serve.py 463-464:
`if rotate_angle != 0: image = image.rotate(-rotate_angle, expand=True)`.
`rotateFn img angle expand` abstracts PIL `Image.rotate`. -/
def applyRotate {Image : Type} (rotateFn : Image → Int → Bool → Image)
    (rotate_angle : Int) (image : Image) : Image :=
  if rotate_angle ≠ 0 then rotateFn image (-rotate_angle) true else image

/-- One conditional enhancement of serve.py 466-476:
`if factor != 1.0: image = Enhancer(image).enhance(factor)`. -/
def applyEnhance {Image : Type} (enhanceFn : Image → Rat → Image)
    (factor : Rat) (image : Image) : Image :=
  if factor ≠ 1 then enhanceFn image factor else image

/-- The full preprocessing block (serve.py 463-476): rotation, then
brightness, then contrast, then sharpness, each behind its guard. -/
def preprocess {Image : Type} (rotateFn : Image → Int → Bool → Image)
    (brightnessFn contrastFn sharpnessFn : Image → Rat → Image)
    (rotate_angle : Int) (brightness contrast sharpness : Rat)
    (image : Image) : Image :=
  applyEnhance sharpnessFn sharpness
    (applyEnhance contrastFn contrast
      (applyEnhance brightnessFn brightness
        (applyRotate rotateFn rotate_angle image)))

/-! ## OCR client and the Extract Text handler (serve.py 446-547) -/

/-- One entry of the service's `ParsedResults` list; `ParsedText` is read
with `.get('ParsedText', '')`, so it is optional. -/
structure ParsedResultEntry where
  ParsedText : Option String
deriving DecidableEq, Repr

/-- The JSON body returned by the OCR service, as the handler reads it:
`IsErroredOnProcessing` truthy flag, optional `ErrorMessage` (read with
default 'Unknown error'), optional `ParsedResults` (read with default []). -/
structure OcrResponse where
  IsErroredOnProcessing : Bool
  ErrorMessage : Option String
  ParsedResults : Option (List ParsedResultEntry)
deriving DecidableEq, Repr

/-- The per-session result state touched by the Extract Text handler:
`ocr_result`, `ocr_language`, `ocr_language_code`, `processing_time`,
`ocr_history`, `shared_results`, `share_url`, `share_id`. -/
structure SessionState where
  ocr_result : Option String
  ocr_language : Option String
  ocr_language_code : Option String
  processing_time : Option Rat
  ocr_history : List HistoryItem
  shared_results : List (String × ShareRecord)
  share_url : Option String
  share_id : Option String
deriving DecidableEq, Repr

/-- What the handler reports for one Extract Text click. -/
inductive ExtractOutcome where
  | oversizeError
  | serviceError (msg : String)
  | noTextFound
  | success (text : String)
deriving DecidableEq, Repr

/-- The image-library operations the handler uses, abstracted: PNG
serialization with optimize enabled (`image.save(..., format="PNG",
optimize=True, quality=70)`), `image.resize`, `image.width`, `image.height`. -/
structure ImageApi (Image : Type) where
  savePng : Image → List Nat
  resize : Image → Nat × Nat → Image
  width : Image → Nat
  height : Image → Nat

/-- The size-budgeting step (serve.py 500-508): serialize; if the bytes
exceed 1 MiB, resize to half dimensions and re-serialize.  Returns the
candidate payload and the number of resize attempts made. -/
def budgetBytes {Image : Type} (api : ImageApi Image) (image : Image) : List Nat × Nat :=
  let file_bytes := api.savePng image
  if file_bytes.length > 1024 * 1024 then
    (api.savePng (api.resize image (api.width image / 2, api.height image / 2)), 1)
  else
    (file_bytes, 0)

/-- Response handling and session-state updates (serve.py 518-545): a truthy
error flag surfaces the service's `ErrorMessage`; an empty `ParsedResults`
list or an empty stripped `ParsedText` is the no-text-found warning; only a
non-empty stripped text updates the session state, appends to history and
creates a share record. -/
def process_response (result : OcrResponse) (selected_lang lang_code filename now : String)
    (shareTime : Nat) (processing_time : Rat) (baseUrlOpt : Option String)
    (state : SessionState) : ExtractOutcome × SessionState :=
  if result.IsErroredOnProcessing then
    (.serviceError (result.ErrorMessage.getD "Unknown error"), state)
  else
    match result.ParsedResults.getD [] with
    | [] => (.noTextFound, state)
    | p :: _ =>
      let text := pyStrip (p.ParsedText.getD "")
      if text = "" then (.noTextFound, state)
      else
        let st1 := { state with
          ocr_result := some text
          ocr_language := some selected_lang
          ocr_language_code := some lang_code
          processing_time := some processing_time }
        let st2 := { st1 with
          ocr_history := add_to_history now text selected_lang filename processing_time st1.ocr_history }
        let shared := generate_shareable_link baseUrlOpt text selected_lang shareTime st2.shared_results
        (.success text,
          { st2 with
            shared_results := shared.2.2
            share_url := some shared.1
            share_id := some shared.2.1 })

/-- The observable effect of one Extract Text click. -/
structure ExtractTrace where
  outcome : ExtractOutcome
  state : SessionState
  ocrCalled : Bool
  sentPayload : Option (List Nat)
  resizeAttempts : Nat
deriving Repr

/-- The Extract Text handler (serve.py 495-547): size budgeting, the single
over-budget check that either aborts with the oversize error (serve.py
510-511) or posts the payload to the OCR service (`ocr_space_file`,
serve.py 447-456) and processes the response.  The network call is the
abstract function `ocr`. -/
def extract_text {Image : Type} (api : ImageApi Image)
    (ocr : List Nat → String → OcrResponse) (image : Image)
    (selected_lang lang_code filename now : String) (shareTime : Nat)
    (processing_time : Rat) (baseUrlOpt : Option String)
    (state : SessionState) : ExtractTrace :=
  let file_bytes := (budgetBytes api image).1
  let attempts := (budgetBytes api image).2
  if file_bytes.length > 1024 * 1024 then
    { outcome := .oversizeError, state := state, ocrCalled := false,
      sentPayload := none, resizeAttempts := attempts }
  else
    let r := process_response (ocr file_bytes lang_code) selected_lang lang_code
      filename now shareTime processing_time baseUrlOpt state
    { outcome := r.1, state := r.2, ocrCalled := true,
      sentPayload := some file_bytes, resizeAttempts := attempts }

/-! ## Lemmas about the structure analyzer -/

/-- First-match-wins reading of rule 2. -/
theorem classifyLine_eq_heading_iff (s : String) :
    classifyLine s = Bucket.heading ↔ headingTest s = true := by
  unfold classifyLine
  repeat' split
  all_goals simp_all

/-- First-match-wins reading of rule 3. -/
theorem classifyLine_eq_listItem_iff (s : String) :
    classifyLine s = Bucket.listItem ↔ (headingTest s = false ∧ listTest s = true) := by
  unfold classifyLine
  repeat' split
  all_goals simp_all

/-- First-match-wins reading of rule 4. -/
theorem classifyLine_eq_codeBlock_iff (s : String) :
    classifyLine s = Bucket.codeBlock ↔
      (headingTest s = false ∧ listTest s = false ∧ codeTest s = true) := by
  unfold classifyLine
  repeat' split
  all_goals simp_all

/-- First-match-wins reading of rule 5. -/
theorem classifyLine_eq_tableRow_iff (s : String) :
    classifyLine s = Bucket.tableRow ↔
      (headingTest s = false ∧ listTest s = false ∧ codeTest s = false ∧ tableTest s = true) := by
  unfold classifyLine
  repeat' split
  all_goals simp_all

/-- Rule 6: paragraph is the fallback bucket. -/
theorem classifyLine_eq_paragraph_iff (s : String) :
    classifyLine s = Bucket.paragraph ↔
      (headingTest s = false ∧ listTest s = false ∧ codeTest s = false ∧ tableTest s = false) := by
  unfold classifyLine
  repeat' split
  all_goals simp_all

/-- Membership in a bucket after one insertion. -/
theorem mem_bucketGet_insertEntry (st : StructureReport) (b0 b : Bucket) (x e : Nat × String) :
    e ∈ bucketGet (insertEntry st b0 x) b ↔ (e ∈ bucketGet st b ∨ (b = b0 ∧ e = x)) := by
  cases b0 <;> cases b <;> simp [insertEntry, bucketGet]

/-- Membership in a bucket after one loop iteration. -/
theorem mem_bucketGet_analyzeStep (st : StructureReport) (p : Nat × String) (b : Bucket)
    (e : Nat × String) :
    e ∈ bucketGet (analyzeStep st p) b ↔
      (e ∈ bucketGet st b ∨
        (pyStrip p.2 ≠ "" ∧ classifyLine (pyStrip p.2) = b ∧ e = (p.1 + 1, pyStrip p.2))) := by
  simp only [analyzeStep]
  by_cases h : pyStrip p.2 = ""
  · simp [h]
  · rw [if_neg h, mem_bucketGet_insertEntry]
    simp only [ne_eq, h, not_false_eq_true, true_and]
    constructor
    · rintro (hm | ⟨hb, he⟩)
      · exact Or.inl hm
      · exact Or.inr ⟨hb.symm, he⟩
    · rintro (hm | ⟨hb, he⟩)
      · exact Or.inl hm
      · exact Or.inr ⟨hb.symm, he⟩

/-- Membership in a bucket after folding the loop body over a list of
enumerated lines, for an arbitrary accumulator. -/
theorem mem_bucketGet_foldl (ps : List (Nat × String)) (st : StructureReport) (b : Bucket)
    (e : Nat × String) :
    e ∈ bucketGet (ps.foldl analyzeStep st) b ↔
      (e ∈ bucketGet st b ∨
        ∃ p, p ∈ ps ∧ pyStrip p.2 ≠ "" ∧ classifyLine (pyStrip p.2) = b ∧
          e = (p.1 + 1, pyStrip p.2)) := by
  induction ps generalizing st with
  | nil => simp
  | cons q ps ih =>
    rw [List.foldl_cons, ih, mem_bucketGet_analyzeStep]
    constructor
    · rintro ((hm | ⟨h1, h2, h3⟩) | ⟨p, hp, h1, h2, h3⟩)
      · exact Or.inl hm
      · exact Or.inr ⟨q, List.mem_cons_self q ps, h1, h2, h3⟩
      · exact Or.inr ⟨p, List.mem_cons_of_mem q hp, h1, h2, h3⟩
    · rintro (hm | ⟨p, hp, h1, h2, h3⟩)
      · exact Or.inl (Or.inl hm)
      · rcases List.mem_cons.mp hp with heq | hp
        · subst heq
          exact Or.inl (Or.inr ⟨h1, h2, h3⟩)
        · exact Or.inr ⟨p, hp, h1, h2, h3⟩

/-- All buckets start out empty. -/
theorem bucketGet_emptyStructure (b : Bucket) : bucketGet emptyStructure b = [] := by
  cases b <;> rfl

/-- Every bucket of the report of `analyze_text_structure text` holds
exactly the enumerated non-blank lines that classify into it. -/
theorem mem_bucketGet_analyze (text : String) (b : Bucket) (e : Nat × String) :
    e ∈ bucketGet (analyze_text_structure text) b ↔
      ∃ i : Nat, ∃ h : i < (splitLines text).length,
        pyStrip ((splitLines text).get ⟨i, h⟩) ≠ "" ∧
        classifyLine (pyStrip ((splitLines text).get ⟨i, h⟩)) = b ∧
        e = (i + 1, pyStrip ((splitLines text).get ⟨i, h⟩)) := by
  unfold analyze_text_structure
  rw [mem_bucketGet_foldl, bucketGet_emptyStructure]
  simp only [List.not_mem_nil, false_or]
  constructor
  · rintro ⟨p, hp, h1, h2, h3⟩
    have hg := List.mem_enum_iff_getElem?.mp hp
    rw [List.getElem?_eq_some] at hg
    obtain ⟨hlt, hget⟩ := hg
    refine ⟨p.1, hlt, ?_, ?_, ?_⟩
    · rwa [List.get_eq_getElem, hget]
    · rwa [List.get_eq_getElem, hget]
    · rwa [List.get_eq_getElem, hget]
  · rintro ⟨i, h, h1, h2, h3⟩
    refine ⟨(i, (splitLines text).get ⟨i, h⟩), ?_, h1, h2, h3⟩
    apply List.mem_enum_iff_getElem?.mpr
    simp [List.get_eq_getElem, List.getElem?_eq_getElem h]

/-- C3: for every non-blank line, the structure analyzer applies its five
rules in the fixed order heading, list, code-like, table-like, paragraph,
and the first matching rule wins (single bucket membership); in particular
the line "# Title" classifies as heading (not code-like), the all-caps line
"TOTAL DUE" (under 100 characters) classifies as heading, and the line
"1. x = 5;" classifies as list, the list rule firing before the code rule. -/
theorem C3_rule_order :
    classifyLine "# Title" = Bucket.heading ∧
    classifyLine "TOTAL DUE" = Bucket.heading ∧
    classifyLine "1. x = 5;" = Bucket.listItem ∧
    (∀ s : String, classifyLine s = Bucket.heading ↔ headingTest s = true) ∧
    (∀ s : String, classifyLine s = Bucket.listItem ↔
      (headingTest s = false ∧ listTest s = true)) ∧
    (∀ s : String, classifyLine s = Bucket.codeBlock ↔
      (headingTest s = false ∧ listTest s = false ∧ codeTest s = true)) ∧
    (∀ s : String, classifyLine s = Bucket.tableRow ↔
      (headingTest s = false ∧ listTest s = false ∧ codeTest s = false ∧ tableTest s = true)) ∧
    (∀ s : String, classifyLine s = Bucket.paragraph ↔
      (headingTest s = false ∧ listTest s = false ∧ codeTest s = false ∧ tableTest s = false)) :=
  ⟨by decide, by decide, by decide, classifyLine_eq_heading_iff, classifyLine_eq_listItem_iff,
    classifyLine_eq_codeBlock_iff, classifyLine_eq_tableRow_iff, classifyLine_eq_paragraph_iff⟩

/-- C4: the analyzer skips every line that is blank after stripping (it
contributes to no bucket), places every other line in exactly one of the
five buckets, and records the 1-based line number counted over the
newline-split text (blank lines included) together with the stripped text. -/
theorem C4_partition (text : String) (i : Nat) (h : i < (splitLines text).length) :
    (pyStrip ((splitLines text).get ⟨i, h⟩) = "" →
      ∀ b : Bucket, ∀ e ∈ bucketGet (analyze_text_structure text) b, e.1 ≠ i + 1) ∧
    (pyStrip ((splitLines text).get ⟨i, h⟩) ≠ "" →
      ((i + 1, pyStrip ((splitLines text).get ⟨i, h⟩)) ∈
          bucketGet (analyze_text_structure text)
            (classifyLine (pyStrip ((splitLines text).get ⟨i, h⟩))) ∧
        ∀ b : Bucket, ∀ e ∈ bucketGet (analyze_text_structure text) b, e.1 = i + 1 →
          b = classifyLine (pyStrip ((splitLines text).get ⟨i, h⟩)) ∧
          e = (i + 1, pyStrip ((splitLines text).get ⟨i, h⟩)))) := by
  constructor
  · intro hblank b e he hline
    rw [mem_bucketGet_analyze] at he
    obtain ⟨j, hj, h1, h2, h3⟩ := he
    have hij : j = i := by
      have : e.1 = j + 1 := by rw [h3]
      omega
    subst hij
    exact h1 hblank
  · intro hnb
    constructor
    · rw [mem_bucketGet_analyze]
      exact ⟨i, h, hnb, rfl, rfl⟩
    · intro b e he hline
      rw [mem_bucketGet_analyze] at he
      obtain ⟨j, hj, h1, h2, h3⟩ := he
      have hij : j = i := by
        have : e.1 = j + 1 := by rw [h3]
        omega
      subst hij
      exact ⟨h2.symm, h3⟩

/-- C4 witness: on the text made of the lines HELLO, a blank line and
1. x, the blank second line reaches no bucket, and the first line sits in
exactly the heading bucket. -/
theorem C4_partition_witness :
    ((pyStrip ((splitLines "HELLO\n\n1. x").get ⟨1, by decide⟩) = "" →
      ∀ b : Bucket, ∀ e ∈ bucketGet (analyze_text_structure "HELLO\n\n1. x") b, e.1 ≠ 1 + 1) ∧
    (pyStrip ((splitLines "HELLO\n\n1. x").get ⟨1, by decide⟩) ≠ "" →
      ((1 + 1, pyStrip ((splitLines "HELLO\n\n1. x").get ⟨1, by decide⟩)) ∈
          bucketGet (analyze_text_structure "HELLO\n\n1. x")
            (classifyLine (pyStrip ((splitLines "HELLO\n\n1. x").get ⟨1, by decide⟩))) ∧
        ∀ b : Bucket, ∀ e ∈ bucketGet (analyze_text_structure "HELLO\n\n1. x") b, e.1 = 1 + 1 →
          b = classifyLine (pyStrip ((splitLines "HELLO\n\n1. x").get ⟨1, by decide⟩)) ∧
          e = (1 + 1, pyStrip ((splitLines "HELLO\n\n1. x").get ⟨1, by decide⟩))))) ∧
    pyStrip ((splitLines "HELLO\n\n1. x").get ⟨1, by decide⟩) = "" :=
  ⟨C4_partition "HELLO\n\n1. x" 1 (by decide), by decide⟩

/-- C10: a non-blank stripped line that does not start with the hash
character and contains no cased character fails the upper-case heading test
(Python isupper needs at least one cased character), so it is never
classified as a heading and falls to the list, code-like, table-like or
paragraph rules. -/
theorem C10_uncased_never_heading (line : String)
    (_h1 : pyStrip line ≠ "")
    (h2 : pyStartsWith (pyStrip line) "#" = false)
    (h3 : ∀ c ∈ (pyStrip line).toList, isCasedChar c = false) :
    pyIsUpper (pyStrip line) = false ∧
    classifyLine (pyStrip line) ≠ Bucket.heading ∧
    (classifyLine (pyStrip line) = Bucket.listItem ∨
      classifyLine (pyStrip line) = Bucket.codeBlock ∨
      classifyLine (pyStrip line) = Bucket.tableRow ∨
      classifyLine (pyStrip line) = Bucket.paragraph) := by
  have hup : pyIsUpper (pyStrip line) = false := by
    unfold pyIsUpper
    have : (pyStrip line).toList.any isCasedChar = false := by
      rw [List.any_eq_false]
      intro c hc
      simp [h3 c hc]
    rw [this]
    rfl
  have hht : headingTest (pyStrip line) = false := by
    unfold headingTest
    rw [h2, hup]
    rfl
  refine ⟨hup, ?_, ?_⟩
  · intro hcl
    rw [classifyLine_eq_heading_iff] at hcl
    rw [hht] at hcl
    exact Bool.false_ne_true hcl
  · cases hc : classifyLine (pyStrip line) with
    | heading =>
      rw [classifyLine_eq_heading_iff, hht] at hc
      exact absurd hc Bool.false_ne_true
    | listItem => exact Or.inl rfl
    | codeBlock => exact Or.inr (Or.inl rfl)
    | tableRow => exact Or.inr (Or.inr (Or.inl rfl))
    | paragraph => exact Or.inr (Or.inr (Or.inr rfl))

/-- C10 witness: the digits-only line 2024 is not a heading; it lands in
the paragraph fallback. -/
theorem C10_uncased_never_heading_witness :
    pyIsUpper (pyStrip "2024") = false ∧
    classifyLine (pyStrip "2024") ≠ Bucket.heading ∧
    (classifyLine (pyStrip "2024") = Bucket.listItem ∨
      classifyLine (pyStrip "2024") = Bucket.codeBlock ∨
      classifyLine (pyStrip "2024") = Bucket.tableRow ∨
      classifyLine (pyStrip "2024") = Bucket.paragraph) :=
  C10_uncased_never_heading "2024" (by decide) (by decide) (by decide)

/-! ## Claim theorems: history, share manager, preprocessing, languages -/

/-- C5: the history list is always ordered most-recent-first with at most
20 entries: each append creates an entry (preview of the first 200
characters plus an ellipsis marker when longer, full text kept separately)
and inserts it at position 0, then truncates to the first 20 entries;
appending 25 results to an empty history leaves exactly 20 entries with
the most recent at position 0 and the 5 oldest evicted. -/
theorem C5_history_cap (now text language filename : String) (pt : Rat)
    (hist : List HistoryItem) :
    (add_to_history now text language filename pt hist).head? =
      some (mkHistoryItem now text language filename pt) ∧
    (add_to_history now text language filename pt hist).length ≤ 20 ∧
    add_to_history now text language filename pt hist =
      (mkHistoryItem now text language filename pt :: hist).take (min (hist.length + 1) 20) ∧
    (text.length > 200 →
      (mkHistoryItem now text language filename pt).text = pyTake text 200 ++ "...") ∧
    (text.length ≤ 200 → (mkHistoryItem now text language filename pt).text = text) ∧
    (mkHistoryItem now text language filename pt).full_text = text ∧
    ((((List.range 25).map (fun k => String.mk (List.replicate k 'a'))).foldl
        (fun h t => add_to_history "ts" t "English" "doc.png" 0 h) []).length = 20 ∧
      (((List.range 25).map (fun k => String.mk (List.replicate k 'a'))).foldl
        (fun h t => add_to_history "ts" t "English" "doc.png" 0 h) []).head? =
        some (mkHistoryItem "ts" (String.mk (List.replicate 24 'a')) "English" "doc.png" 0) ∧
      (((List.range 25).map (fun k => String.mk (List.replicate k 'a'))).foldl
        (fun h t => add_to_history "ts" t "English" "doc.png" 0 h) []).map
          (fun it => it.full_text) =
        (((List.range 25).map (fun k => String.mk (List.replicate k 'a'))).reverse).take 20) := by
  refine ⟨?_, ?_, ?_, ?_, ?_, rfl, by decide⟩
  · simp only [add_to_history]
    split
    · rfl
    · rfl
  · simp only [add_to_history]
    split
    · simp
    · rename_i hlen
      simp only [List.length_cons, not_lt] at hlen ⊢
      omega
  · simp only [add_to_history]
    split
    · rename_i hlen
      simp only [List.length_cons] at hlen
      have : min (hist.length + 1) 20 = 20 := by omega
      rw [this]
    · rename_i hlen
      simp only [List.length_cons] at hlen
      have : min (hist.length + 1) 20 = hist.length + 1 := by omega
      rw [this]
      rw [show hist.length + 1 = (mkHistoryItem now text language filename pt :: hist).length by simp]
      exact (List.take_length _).symm
  · intro hl
    simp [mkHistoryItem, hl]
  · intro hl
    have : ¬ (text.length > 200) := by omega
    simp [mkHistoryItem, this]

/-- C5 witness: appending to an empty history puts the new entry at
position 0 and keeps the 50-character preview unmodified. -/
theorem C5_history_cap_witness :
    (add_to_history "t0" "hello" "English" "a.png" 0 []).head? =
      some (mkHistoryItem "t0" "hello" "English" "a.png" 0) ∧
    (mkHistoryItem "t0" "hello" "English" "a.png" 0).text = "hello" :=
  ⟨(C5_history_cap "t0" "hello" "English" "a.png" 0 []).1,
    (C5_history_cap "t0" "hello" "English" "a.png" 0 []).2.2.2.2.1 (by decide)⟩

/-- Lookup misses every association list that holds no pair with the key. -/
theorem lookup_eq_none_of_not_mem (store : List (String × ShareRecord)) (sid : String)
    (h : ∀ r : ShareRecord, (sid, r) ∉ store) : store.lookup sid = none := by
  induction store with
  | nil => rfl
  | cons p rest ih =>
    have hne : sid ≠ p.1 := by
      intro he
      exact h p.2 (by rw [he]; exact List.mem_cons_self p rest)
    have hbeq : (sid == p.1) = false := beq_eq_false_iff_ne.mpr hne
    have hrest : ∀ r : ShareRecord, (sid, r) ∉ rest := by
      intro r hr
      exact h r (List.mem_cons_of_mem p hr)
    calc (p :: rest).lookup sid = rest.lookup sid := by
          rcases p with ⟨k, v⟩
          simp [List.lookup, hbeq]
      _ = none := ih hrest

/-- C6: resolving an identifier that was never created returns none, and
resolving immediately after creating a share returns the original text and
language unchanged. -/
theorem C6_share_resolution (store : List (String × ShareRecord)) (sid : String)
    (hnew : ∀ r : ShareRecord, (sid, r) ∉ store) :
    get_shared_result store sid = none ∧
    ∀ (baseUrlOpt : Option String) (text language : String) (t : Nat),
      get_shared_result (generate_shareable_link baseUrlOpt text language t store).2.2
          (generate_shareable_link baseUrlOpt text language t store).2.1 =
        some { text := text, language := language, timestamp := toString t } := by
  constructor
  · exact lookup_eq_none_of_not_mem store sid hnew
  · intro baseUrlOpt text language t
    simp [generate_shareable_link, get_shared_result, List.lookup]

/-- C6 witness: a never-created identifier resolves to none on the empty
store, and a share created there resolves back to its text and language. -/
theorem C6_share_resolution_witness :
    get_shared_result [] "never" = none ∧
    get_shared_result (generate_shareable_link none "txt" "English" 5 []).2.2
        (generate_shareable_link none "txt" "English" 5 []).2.1 =
      some { text := "txt", language := "English", timestamp := toString 5 } :=
  ⟨(C6_share_resolution [] "never" (by simp)).1,
    (C6_share_resolution [] "never" (by simp)).2 none "txt" "English" 5⟩

/-- C7: the share identifier is the Unix timestamp, an underscore, and the
first 8 hex characters of the MD5 digest of text concatenated with language
and timestamp; the record is stored under that identifier; the URL appends
the share query parameter to the configured base URL, with the local
default address as fallback; and the identifier depends only on text,
language and timestamp, so identical inputs give identical identifiers. -/
theorem C7_share_identifier (baseUrlOpt : Option String) (text language : String) (t : Nat)
    (store : List (String × ShareRecord)) :
    (generate_shareable_link baseUrlOpt text language t store).2.1 =
      toString t ++ "_" ++ pyTake (md5Hex (text ++ language ++ toString t)) 8 ∧
    (generate_shareable_link baseUrlOpt text language t store).2.2 =
      ((generate_shareable_link baseUrlOpt text language t store).2.1,
        ({ text := text, language := language, timestamp := toString t } : ShareRecord)) :: store ∧
    (baseUrlOpt = none →
      (generate_shareable_link baseUrlOpt text language t store).1 =
        "http://localhost:8501" ++ "?share=" ++
          (generate_shareable_link baseUrlOpt text language t store).2.1) ∧
    (∀ b : String, baseUrlOpt = some b → b ≠ "" →
      (generate_shareable_link baseUrlOpt text language t store).1 =
        b ++ "?share=" ++ (generate_shareable_link baseUrlOpt text language t store).2.1) ∧
    (∀ (baseUrl2 : Option String) (store2 : List (String × ShareRecord)),
      (generate_shareable_link baseUrl2 text language t store2).2.1 =
        (generate_shareable_link baseUrlOpt text language t store).2.1) := by
  refine ⟨rfl, rfl, ?_, ?_, ?_⟩
  · intro hb
    subst hb
    rfl
  · intro b hb hne
    subst hb
    simp [generate_shareable_link, hne]
  · intro baseUrl2 store2
    rfl

/-- C7 witness: with a configured non-empty base URL the link is that base
URL followed by the share query parameter. -/
theorem C7_share_identifier_witness :
    (generate_shareable_link (some "https://ocr.example") "t" "eng" 7 []).1 =
      "https://ocr.example" ++ "?share=" ++
        (generate_shareable_link (some "https://ocr.example") "t" "eng" 7 []).2.1 :=
  (C7_share_identifier (some "https://ocr.example") "t" "eng" 7 []).2.2.2.1
    "https://ocr.example" rfl (by decide)

/-- MD5 known-answer check of the embedded digest, against the standard
test vector for the string abc. -/
theorem md5Hex_abc : md5Hex "abc" = "900150983cd24fb0d6963f7d28e17f72" := by
  set_option maxRecDepth 10000 in decide

/-- C8: preprocessing applies rotation, brightness, contrast, sharpness in
that fixed order; rotation rotates by the negative of the selected angle
with canvas expansion and is skipped at angle 0; each enhancement runs only
when its factor differs from 1.0 under exact equality; with angle 0 and all
factors 1.0 the image is returned unchanged. -/
theorem C8_preprocess_identity (Image : Type) (rotateFn : Image → Int → Bool → Image)
    (brightnessFn contrastFn sharpnessFn : Image → Rat → Image)
    (rotate_angle : Int) (brightness contrast sharpness : Rat) (image : Image) :
    preprocess rotateFn brightnessFn contrastFn sharpnessFn 0 1 1 1 image = image ∧
    preprocess rotateFn brightnessFn contrastFn sharpnessFn
        rotate_angle brightness contrast sharpness image =
      applyEnhance sharpnessFn sharpness
        (applyEnhance contrastFn contrast
          (applyEnhance brightnessFn brightness
            (applyRotate rotateFn rotate_angle image))) ∧
    applyRotate rotateFn 0 image = image ∧
    (rotate_angle ≠ 0 →
      applyRotate rotateFn rotate_angle image = rotateFn image (-rotate_angle) true) ∧
    (applyEnhance brightnessFn 1 image = image) ∧
    (brightness ≠ 1 →
      applyEnhance brightnessFn brightness image = brightnessFn image brightness) := by
  refine ⟨?_, rfl, ?_, ?_, ?_, ?_⟩
  · simp [preprocess, applyEnhance, applyRotate]
  · simp [applyRotate]
  · intro h
    simp [applyRotate, h]
  · simp [applyEnhance]
  · intro h
    simp [applyEnhance, h]

/-- C8 witness: the identity configuration leaves a concrete image
untouched, and a 90 degree selection rotates by minus 90 with expansion. -/
theorem C8_preprocess_identity_witness :
    preprocess (fun (i : Rat) (a : Int) (_ : Bool) => i + (a : Rat))
        (fun i f => i + f) (fun i f => i + f) (fun i f => i + f) 0 1 1 1 5 = 5 ∧
    applyRotate (fun (i : Rat) (a : Int) (_ : Bool) => i + (a : Rat)) 90 5 =
      (fun (i : Rat) (a : Int) (_ : Bool) => i + (a : Rat)) 5 (-90) true :=
  ⟨(C8_preprocess_identity Rat (fun i a _ => i + (a : Rat))
      (fun i f => i + f) (fun i f => i + f) (fun i f => i + f) 90 2 2 2 5).1,
    (C8_preprocess_identity Rat (fun i a _ => i + (a : Rat))
      (fun i f => i + f) (fun i f => i + f) (fun i f => i + f) 90 2 2 2 5).2.2.2.1
      (by decide)⟩

/-- C9 counterexample: the language catalog does not have 66 entries. -/
theorem C9_counterexample : ¬ (languages.length = 66) := by decide

/-- C9 (amended): the language selection catalog is a fixed mapping of 65
human-readable language names (with no duplicate names) to OCR-service
codes, whose final entry Other maps to the same code as English (eng),
with English as the default selection at index 0. -/
theorem C9_catalog :
    languages.length = 65 ∧
    languages.getLast? = some ("Other", "eng") ∧
    languages.lookup "Other" = some "eng" ∧
    languages.lookup "English" = some "eng" ∧
    languages.head? = some ("English", "eng") ∧
    (languages.map Prod.fst).Nodup := by decide

/-! ## Claim theorems: the Extract Text handler -/

/-- C1: if the serialized PNG exceeds 1 MiB, exactly one resize to half
dimensions is attempted and the image re-serialized; if the result is still
over 1 MiB the outcome is the oversize error, no OCR request is made and
the session state is untouched; and whenever the OCR service is invoked the
payload it receives is at most 1 MiB. -/
theorem C1_size_budget (Image : Type) (api : ImageApi Image)
    (ocr : List Nat → String → OcrResponse) (image : Image)
    (selected_lang lang_code filename now : String) (shareTime : Nat)
    (processing_time : Rat) (baseUrlOpt : Option String) (state : SessionState) :
    ((api.savePng image).length > 1024 * 1024 →
      (extract_text api ocr image selected_lang lang_code filename now shareTime
          processing_time baseUrlOpt state).resizeAttempts = 1 ∧
      ((api.savePng (api.resize image (api.width image / 2, api.height image / 2))).length >
          1024 * 1024 →
        (extract_text api ocr image selected_lang lang_code filename now shareTime
            processing_time baseUrlOpt state).outcome = ExtractOutcome.oversizeError ∧
        (extract_text api ocr image selected_lang lang_code filename now shareTime
            processing_time baseUrlOpt state).ocrCalled = false ∧
        (extract_text api ocr image selected_lang lang_code filename now shareTime
            processing_time baseUrlOpt state).sentPayload = none ∧
        (extract_text api ocr image selected_lang lang_code filename now shareTime
            processing_time baseUrlOpt state).state = state)) ∧
    (∀ pb : List Nat,
      (extract_text api ocr image selected_lang lang_code filename now shareTime
          processing_time baseUrlOpt state).sentPayload = some pb →
      pb.length ≤ 1024 * 1024) ∧
    ((extract_text api ocr image selected_lang lang_code filename now shareTime
        processing_time baseUrlOpt state).ocrCalled = true →
      (extract_text api ocr image selected_lang lang_code filename now shareTime
          processing_time baseUrlOpt state).sentPayload ≠ none) := by
  by_cases h1 : (api.savePng image).length > 1024 * 1024
  · have hb : budgetBytes api image =
        (api.savePng (api.resize image (api.width image / 2, api.height image / 2)), 1) := by
      simp [budgetBytes, h1]
    by_cases h2 : (api.savePng (api.resize image
        (api.width image / 2, api.height image / 2))).length > 1024 * 1024
    · have he : extract_text api ocr image selected_lang lang_code filename now shareTime
          processing_time baseUrlOpt state =
          { outcome := ExtractOutcome.oversizeError, state := state, ocrCalled := false,
            sentPayload := none, resizeAttempts := 1 } := by
        simp [extract_text, hb, h2]
      refine ⟨fun _ => ⟨by rw [he], fun _ => ⟨by rw [he], by rw [he], by rw [he], by rw [he]⟩⟩,
        ?_, ?_⟩
      · intro pb hpb
        rw [he] at hpb
        exact absurd hpb (by simp)
      · intro hc
        rw [he] at hc
        exact absurd hc (by simp)
    · have he : extract_text api ocr image selected_lang lang_code filename now shareTime
          processing_time baseUrlOpt state =
          { outcome := (process_response (ocr (api.savePng (api.resize image
              (api.width image / 2, api.height image / 2))) lang_code) selected_lang lang_code
              filename now shareTime processing_time baseUrlOpt state).1,
            state := (process_response (ocr (api.savePng (api.resize image
              (api.width image / 2, api.height image / 2))) lang_code) selected_lang lang_code
              filename now shareTime processing_time baseUrlOpt state).2,
            ocrCalled := true,
            sentPayload := some (api.savePng (api.resize image
              (api.width image / 2, api.height image / 2))),
            resizeAttempts := 1 } := by
        simp [extract_text, hb, h2]
      refine ⟨fun _ => ⟨by rw [he], fun hcon => absurd hcon h2⟩, ?_, ?_⟩
      · intro pb hpb
        rw [he] at hpb
        simp only [Option.some.injEq] at hpb
        subst hpb
        omega
      · intro _
        rw [he]
        simp
  · have hb : budgetBytes api image = (api.savePng image, 0) := by
      simp [budgetBytes, h1]
    have he : extract_text api ocr image selected_lang lang_code filename now shareTime
        processing_time baseUrlOpt state =
        { outcome := (process_response (ocr (api.savePng image) lang_code) selected_lang
            lang_code filename now shareTime processing_time baseUrlOpt state).1,
          state := (process_response (ocr (api.savePng image) lang_code) selected_lang
            lang_code filename now shareTime processing_time baseUrlOpt state).2,
          ocrCalled := true, sentPayload := some (api.savePng image),
          resizeAttempts := 0 } := by
      simp [extract_text, hb, h1]
    refine ⟨fun hcon => absurd hcon h1, ?_, ?_⟩
    · intro pb hpb
      rw [he] at hpb
      simp only [Option.some.injEq] at hpb
      subst hpb
      omega
    · intro _
      rw [he]
      simp

/-- C1 witness: a synthetic image whose serialization stays over 1 MiB even
after the halving attempt yields the oversize outcome, no OCR call, one
resize attempt and an unchanged session state. -/
theorem C1_size_budget_witness :
    (extract_text ⟨fun _ => List.replicate 1100000 0, fun _ _ => (), fun _ => 4, fun _ => 4⟩
        (fun _ _ => ⟨false, none, none⟩) () "English" "eng" "doc.png" "now" 0 0 none
        ⟨none, none, none, none, [], [], none, none⟩).outcome = ExtractOutcome.oversizeError ∧
    (extract_text ⟨fun _ => List.replicate 1100000 0, fun _ _ => (), fun _ => 4, fun _ => 4⟩
        (fun _ _ => ⟨false, none, none⟩) () "English" "eng" "doc.png" "now" 0 0 none
        ⟨none, none, none, none, [], [], none, none⟩).ocrCalled = false ∧
    (extract_text ⟨fun _ => List.replicate 1100000 0, fun _ _ => (), fun _ => 4, fun _ => 4⟩
        (fun _ _ => ⟨false, none, none⟩) () "English" "eng" "doc.png" "now" 0 0 none
        ⟨none, none, none, none, [], [], none, none⟩).sentPayload = none ∧
    (extract_text ⟨fun _ => List.replicate 1100000 0, fun _ _ => (), fun _ => 4, fun _ => 4⟩
        (fun _ _ => ⟨false, none, none⟩) () "English" "eng" "doc.png" "now" 0 0 none
        ⟨none, none, none, none, [], [], none, none⟩).state =
      ⟨none, none, none, none, [], [], none, none⟩ :=
  ((C1_size_budget Unit ⟨fun _ => List.replicate 1100000 0, fun _ _ => (), fun _ => 4, fun _ => 4⟩
      (fun _ _ => ⟨false, none, none⟩) () "English" "eng" "doc.png" "now" 0 0 none
      ⟨none, none, none, none, [], [], none, none⟩).1
    (by show (List.replicate 1100000 (0 : Nat)).length > 1024 * 1024
        rw [List.length_replicate]
        norm_num)).2
    (by show (List.replicate 1100000 (0 : Nat)).length > 1024 * 1024
        rw [List.length_replicate]
        norm_num)

/-- C2: a service response with a truthy error flag surfaces its error
message verbatim; an empty parsed-results list, or an empty stripped parsed
text, yields the no-text-found outcome with the session result state left
unchanged; and a success outcome arises exactly from a non-empty stripped
parsed text of the first entry. -/
theorem C2_response_handling (result : OcrResponse)
    (selected_lang lang_code filename now : String) (shareTime : Nat)
    (processing_time : Rat) (baseUrlOpt : Option String) (state : SessionState) :
    (result.IsErroredOnProcessing = true →
      (∀ m : String, result.ErrorMessage = some m →
        (process_response result selected_lang lang_code filename now shareTime
            processing_time baseUrlOpt state).1 = ExtractOutcome.serviceError m) ∧
      (process_response result selected_lang lang_code filename now shareTime
          processing_time baseUrlOpt state).2 = state) ∧
    (result.IsErroredOnProcessing = false → result.ParsedResults.getD [] = [] →
      (process_response result selected_lang lang_code filename now shareTime
          processing_time baseUrlOpt state).1 = ExtractOutcome.noTextFound ∧
      (process_response result selected_lang lang_code filename now shareTime
          processing_time baseUrlOpt state).2 = state) ∧
    (result.IsErroredOnProcessing = false →
      ∀ (p : ParsedResultEntry) (rest : List ParsedResultEntry),
        result.ParsedResults.getD [] = p :: rest →
        pyStrip (p.ParsedText.getD "") = "" →
        (process_response result selected_lang lang_code filename now shareTime
            processing_time baseUrlOpt state).1 = ExtractOutcome.noTextFound ∧
        (process_response result selected_lang lang_code filename now shareTime
            processing_time baseUrlOpt state).2 = state) ∧
    (∀ t : String,
      (process_response result selected_lang lang_code filename now shareTime
          processing_time baseUrlOpt state).1 = ExtractOutcome.success t →
      result.IsErroredOnProcessing = false ∧ t ≠ "" ∧
      ∃ (p : ParsedResultEntry) (rest : List ParsedResultEntry),
        result.ParsedResults.getD [] = p :: rest ∧ pyStrip (p.ParsedText.getD "") = t) := by
  refine ⟨?_, ?_, ?_, ?_⟩
  · intro herr
    constructor
    · intro m hm
      simp [process_response, herr, hm]
    · simp [process_response, herr]
  · intro herr hemp
    simp [process_response, herr, hemp]
  · intro herr p rest hpr hstrip
    simp [process_response, herr, hpr, hstrip]
  · intro t hsucc
    by_cases herr : result.IsErroredOnProcessing = true
    · simp [process_response, herr] at hsucc
    · have herr' : result.IsErroredOnProcessing = false := by
        simpa using herr
      rcases hpr : result.ParsedResults.getD [] with _ | ⟨p, rest⟩
      · simp [process_response, herr', hpr] at hsucc
      · by_cases hs : pyStrip (p.ParsedText.getD "") = ""
        · simp [process_response, herr', hpr, hs] at hsucc
        · simp [process_response, herr', hpr, hs] at hsucc
          subst hsucc
          exact ⟨herr', hs, p, rest, rfl, rfl⟩

/-- C2 witness: the simulated errored response with message Bad image
surfaces exactly that message, and an empty parsed-results list gives the
no-text-found outcome with the state unchanged. -/
theorem C2_response_handling_witness :
    (process_response ⟨true, some "Bad image", none⟩ "English" "eng" "doc.png" "now" 0 0 none
        ⟨none, none, none, none, [], [], none, none⟩).1 =
      ExtractOutcome.serviceError "Bad image" ∧
    (process_response ⟨false, none, some []⟩ "English" "eng" "doc.png" "now" 0 0 none
        ⟨none, none, none, none, [], [], none, none⟩).1 = ExtractOutcome.noTextFound ∧
    (process_response ⟨false, none, some []⟩ "English" "eng" "doc.png" "now" 0 0 none
        ⟨none, none, none, none, [], [], none, none⟩).2 =
      ⟨none, none, none, none, [], [], none, none⟩ :=
  ⟨((C2_response_handling ⟨true, some "Bad image", none⟩ "English" "eng" "doc.png" "now" 0 0 none
      ⟨none, none, none, none, [], [], none, none⟩).1 rfl).1 "Bad image" rfl,
    ((C2_response_handling ⟨false, none, some []⟩ "English" "eng" "doc.png" "now" 0 0 none
      ⟨none, none, none, none, [], [], none, none⟩).2.1 rfl rfl).1,
    ((C2_response_handling ⟨false, none, some []⟩ "English" "eng" "doc.png" "now" 0 0 none
      ⟨none, none, none, none, [], [], none, none⟩).2.1 rfl rfl).2⟩
